import Mathlib

/-!
Verification of the field/message codec layer of the tag-dummy repository
(`field_codecs.py`, `message_codecs.py`).

Modelling conventions (shallow embedding of the Python source):

* A Python `bytes` object is a `List Nat`, each element in `0..255` by
  construction.
* A Python `str` is represented by the list of bytes of its UTF-8 encoding,
  so `str.encode()` and `bytes.decode()` are the identity on this
  representation.  (`bytes.decode()` can raise on invalid UTF-8; no claim
  exercises that path, every decoded buffer in the claims is valid ASCII.)
  Character indexing coincides with byte indexing for the one place it is
  used, locating the first NUL: in UTF-8 the byte 0 occurs exactly at the
  NUL character, and truncating the characters before the first NUL yields
  exactly the bytes before the first 0 byte.
* Python numbers are `PyNum`: `pint` for `int`, `pfloat` for `float`.
  Floats are idealised as exact rationals; the only float facts used by the
  theorems are type facts (a `float` has no `to_bytes` attribute, `/` and
  multiplication by a float literal produce floats), which hold under any
  float semantics.
* A raised exception is an `Except.error` carrying the exception class.
* Python dicts used as structured message inputs are records with `Option`
  fields; `none` models an absent key (so `d['k']` raises `KeyError` and
  `d.get('k', None)` yields `None`).
-/

/-- Exception classes that the embedded code can raise. -/
inductive PyError where
  | valueError
  | keyError
  | typeError
  | attributeError
  | nameError
  | assertionError
  | stopIteration
  | overflowError
  | indexError
  deriving DecidableEq, Repr

/-- Short hand for a Python computation that may raise. -/
abbrev EB (α : Type) : Type := Except PyError α

instance {ε α : Type} [DecidableEq ε] [DecidableEq α] : DecidableEq (Except ε α)
  | .ok a, .ok b =>
      if h : a = b then .isTrue (by rw [h])
      else .isFalse (by intro hh; cases hh; exact h rfl)
  | .ok _, .error _ => .isFalse (by intro h; cases h)
  | .error _, .ok _ => .isFalse (by intro h; cases h)
  | .error a, .error b =>
      if h : a = b then .isTrue (by rw [h])
      else .isFalse (by intro hh; cases hh; exact h rfl)

/-- Little-endian unsigned integer value of a byte string:
`int.from_bytes(b, 'little')`. -/
def natLE : List Nat → Nat
  | [] => 0
  | b :: rest => b + 256 * natLE rest

/-- Little-endian signed (two's complement) integer value of a byte string:
`int.from_bytes(b, 'little', signed=True)`.  On the empty string Python
returns 0, which the formula also gives. -/
def sintLE (l : List Nat) : Int :=
  if 2 * natLE l < 256 ^ l.length then (natLE l : Int)
  else (natLE l : Int) - (256 ^ l.length : Nat)

/-- Little-endian byte string of a nonnegative integer, fixed width:
the value part of `v.to_bytes(len, 'little')`. -/
def natToLE : Nat → Nat → List Nat
  | 0, _ => []
  | len + 1, v => v % 256 :: natToLE len (v / 256)

/-- The UTF-8 bytes of an ASCII Lean string literal, used to write the
Python string literals of the source. -/
def pystr (s : String) : List Nat := s.data.map Char.toNat

/-- Python numbers: `int` or `float` (floats idealised as rationals). -/
inductive PyNum where
  | pint : Int → PyNum
  | pfloat : ℚ → PyNum
  deriving DecidableEq, Repr

/-- Python multiplication on numbers: the result is a `float` unless both
operands are `int`s. -/
def pymul : PyNum → PyNum → PyNum
  | .pint a, .pint b => .pint (a * b)
  | .pint a, .pfloat b => .pfloat ((a : ℚ) * b)
  | .pfloat a, .pint b => .pfloat (a * (b : ℚ))
  | .pfloat a, .pfloat b => .pfloat (a * b)

/-- Python `int(x)` on a number: truncation toward zero for floats. -/
def pyTrunc : PyNum → Int
  | .pint v => v
  | .pfloat q => q.num.tdiv (q.den : Int)

/-- Python true division `x / y` for a positive integer constant divisor:
always returns a `float`. -/
def pyDivByConst (x : Int) (c : Nat) : PyNum := .pfloat ((x : ℚ) / (c : ℚ))

/-- Signed fixed-width serialization `v.to_bytes(len, 'little', signed=True)`
of a Python number.  Calling `to_bytes` on a `float` raises
`AttributeError` (floats have no such attribute); an out-of-range `int`
raises `OverflowError`. -/
def pyNum_to_bytes_signed (len : Nat) : PyNum → EB (List Nat)
  | .pfloat _ => .error .attributeError
  | .pint v =>
      if v < -((2 ^ (8 * len - 1) : Nat) : Int) ∨ ((2 ^ (8 * len - 1) : Nat) : Int) ≤ v
      then .error .overflowError
      else .ok (natToLE len ((v % ((256 ^ len : Nat) : Int)).toNat))

/-- Python `bytes([x])` for an integer `x`: raises `ValueError` outside
`0..255`. -/
def byte1 (x : Int) : EB (List Nat) :=
  if 0 ≤ x ∧ x < 256 then .ok [x.toNat] else .error .valueError

/-- First index of a byte value in a byte string, `str.index` /
`bytes.index` style (the caller decides whether absence raises). -/
def idxOf? (c : Nat) : List Nat → Option Nat
  | [] => none
  | b :: rest => if b = c then some 0 else (idxOf? c rest).map (· + 1)

/-- Association-list lookup, modelling Python dict indexing `d[k]`
(`none` when the key is absent). -/
def dictLookup {κ α : Type} [DecidableEq κ] : List (κ × α) → κ → Option α
  | [], _ => none
  | (k, v) :: rest, key => if key = k then some v else dictLookup rest key

theorem dictLookup_eq_none_iff {κ α : Type} [DecidableEq κ]
    (d : List (κ × α)) (k : κ) :
    dictLookup d k = none ↔ k ∉ d.map Prod.fst := by
  induction d with
  | nil => simp [dictLookup]
  | cons hd tl ih =>
      obtain ⟨k', v'⟩ := hd
      by_cases h : k = k' <;> simp [dictLookup, h, ih]

/-! ## `json.dumps` on ASCII documents -/

/-- ASCII decimal digits of a natural number (`repr` of a nonnegative
`int`). -/
def natDecimal (n : Nat) : List Nat :=
  if h : n < 10 then [48 + n]
  else natDecimal (n / 10) ++ [48 + n % 10]
termination_by n
decreasing_by exact Nat.div_lt_self (by omega) (by omega)

/-- ASCII decimal representation of a Python `int`. -/
def intDecimal (i : Int) : List Nat :=
  if i < 0 then 45 :: natDecimal i.natAbs else natDecimal i.toNat

/-- The escape `json.dumps` applies to one ASCII character of a string. -/
def jsonEscByte (c : Nat) : List Nat :=
  if c = 34 then [92, 34]
  else if c = 92 then [92, 92]
  else if c = 8 then [92, 98]
  else if c = 9 then [92, 116]
  else if c = 10 then [92, 110]
  else if c = 12 then [92, 102]
  else if c = 13 then [92, 114]
  else if c < 32 then
    [92, 117, 48, 48,
     if c / 16 < 10 then 48 + c / 16 else 87 + c / 16,
     if c % 16 < 10 then 48 + c % 16 else 87 + c % 16]
  else [c]

/-- JSON-serializable Python documents (strings restricted to ASCII, see
the header conventions). -/
inductive Json where
  | jnull
  | jbool (b : Bool)
  | jnum (n : Int)
  | jstr (s : List Nat)
  | jarr (elems : List Json)
  | jobj (fields : List (List Nat × Json))

/-- `json.dumps(doc).encode()` with the default separators
(`", "` between items, `": "` after keys). -/
def jsonDumps : Json → List Nat
  | .jnull => pystr "null"
  | .jbool true => pystr "true"
  | .jbool false => pystr "false"
  | .jnum n => intDecimal n
  | .jstr s => 34 :: (s.map jsonEscByte).flatten ++ [34]
  | .jarr elems =>
      91 :: List.intercalate (pystr ", ")
        (elems.attach.map (fun e => jsonDumps e.1)) ++ [93]
  | .jobj fields =>
      123 :: List.intercalate (pystr ", ")
        (fields.attach.map (fun kv =>
          (34 :: (kv.1.1.map jsonEscByte).flatten ++ [34]) ++ pystr ": " ++
            jsonDumps kv.1.2)) ++ [125]
termination_by j => sizeOf j
decreasing_by
  · have := List.sizeOf_lt_of_mem e.2
    simp only [Json.jarr.sizeOf_spec]
    omega
  · obtain ⟨⟨k, v⟩, hm⟩ := kv
    have := List.sizeOf_lt_of_mem hm
    simp only [Prod.mk.sizeOf_spec] at this
    simp only [Json.jobj.sizeOf_spec]
    omega


/-! ## Field codecs (`field_codecs.py`) -/

/-- State of a `FieldInteger` instance: its fixed byte length and its
stored value (`None` allowed). -/
structure FieldIntegerV where
  length : Nat
  value : Option Int
  deriving DecidableEq, Repr

/-- `FieldInteger.__init__` / value setter, `int` branch: stores the
integer unchecked. -/
def fieldInteger_fromInt (len : Nat) (v : Int) : FieldIntegerV := ⟨len, some v⟩

/-- `FieldInteger` value setter, `bytes` branch: rejects a byte string
whose length differs from the field length, otherwise stores the
little-endian unsigned value. -/
def fieldInteger_fromBytes (len : Nat) (b : List Nat) : EB FieldIntegerV :=
  if b.length ≠ len then .error .valueError
  else .ok ⟨len, some (natLE b : Int)⟩

/-- `FieldInteger` value setter, `None` branch: stores `None`. -/
def fieldInteger_fromNone (len : Nat) : FieldIntegerV := ⟨len, none⟩

/-- `FieldInteger.as_bytes`: `self._value.to_bytes(self._length, 'little')`.
On a `None` value this is an attribute access on `None` (`AttributeError`);
a negative or too-large value raises `OverflowError` inside `to_bytes`. -/
def fieldInteger_as_bytes (f : FieldIntegerV) : EB (List Nat) :=
  match f.value with
  | none => .error .attributeError
  | some v =>
      if v < 0 ∨ ((256 ^ f.length : Nat) : Int) ≤ v then .error .overflowError
      else .ok (natToLE f.length v.toNat)

/-- State of a `FieldText` instance (value is the UTF-8 byte string, or
`None`). -/
structure FieldTextV where
  length : Nat
  value : Option (List Nat)
  deriving DecidableEq, Repr

/-- `FieldText` value setter, `str` branch: rejects a string whose encoding
exceeds the field length. -/
def fieldText_fromStr (len : Nat) (s : List Nat) : EB FieldTextV :=
  if s.length > len then .error .valueError
  else .ok ⟨len, some s⟩

/-- `FieldText` value setter, `bytes` branch.  After `t = value.decode()`
the source runs `p = t.index('\0')` and then
`self._value = t if p == -1 else t[0:p]`.  `str.index` raises `ValueError`
when the character is absent (it never returns -1, so the `p == -1` branch
is dead code), hence a buffer without a NUL byte raises. -/
def fieldText_fromBytes (len : Nat) (b : List Nat) : EB FieldTextV :=
  if b.length > len then .error .valueError
  else
    match idxOf? 0 b with
    | none => .error .valueError
    | some p => .ok ⟨len, some (b.take p)⟩

/-- `FieldText` value setter, `None` branch. -/
def fieldText_fromNone (len : Nat) : FieldTextV := ⟨len, none⟩

/-- `FieldText.as_bytes`: `(value.encode() + b'\0' * length)[:length]`. -/
def fieldText_as_bytes (f : FieldTextV) : EB (List Nat) :=
  match f.value with
  | none => .error .attributeError
  | some s => .ok ((s ++ List.replicate f.length 0).take f.length)

/-- State of a `FieldBinary` instance. -/
structure FieldBinaryV where
  length : Nat
  value : Option (List Nat)
  deriving DecidableEq, Repr

/-- `FieldBinary` value setter, `list` branch: exact length required. -/
def fieldBinary_fromList (len : Nat) (l : List Nat) : EB FieldBinaryV :=
  if l.length ≠ len then .error .valueError
  else .ok ⟨len, some l⟩

/-- `FieldBinary` value setter, `bytes` branch: exact length required. -/
def fieldBinary_fromBytes (len : Nat) (b : List Nat) : EB FieldBinaryV :=
  if b.length ≠ len then .error .valueError
  else .ok ⟨len, some b⟩

/-- `FieldBinary` value setter, `str` branch: a string of encoded length at
most the field length is accepted and stored UNPADDED
(`self._value = value.encode()`). -/
def fieldBinary_fromStr (len : Nat) (s : List Nat) : EB FieldBinaryV :=
  if s.length > len then .error .valueError
  else .ok ⟨len, some s⟩

/-- `FieldBinary.as_bytes`: returns the stored value as is. -/
def fieldBinary_as_bytes (f : FieldBinaryV) : EB (List Nat) :=
  match f.value with
  | none => .error .attributeError
  | some b => .ok b

/-- `FieldChecklistResponses.NUM_RESPONSES` (= `SIZE`). -/
def fieldChecklistResponses_NUM_RESPONSES : Nat := 5

/-- State of a `FieldChecklistResponses` instance: the question-id →
answer mapping, as an insertion-ordered association list (Python dict).
Keys are the integer question ids (`int(k)` is the identity on them). -/
structure FieldChecklistResponsesV where
  entries : List (Nat × Nat)
  deriving DecidableEq, Repr

/-- `FieldChecklistResponses.__init__`, `dict` branch.  The length check
`len(value) != NUM_RESPONSES` raises, but building the exception message
evaluates `value['responses']` first, which raises `KeyError` on a dict
keyed by integer question ids.  Each answer value must be 0, 1 or 2. -/
def fieldChecklistResponses_fromDict (d : List (Nat × Nat)) :
    EB FieldChecklistResponsesV :=
  if d.length ≠ fieldChecklistResponses_NUM_RESPONSES then .error .keyError
  else if d.all (fun kv => kv.2 = 0 ∨ kv.2 = 1 ∨ kv.2 = 2) then .ok ⟨d⟩
  else .error .valueError

/-- `FieldChecklistResponses.__init__`, `bytes` branch.  A byte string of
the wrong length raises while formatting the error message
(`value['responses']` on `bytes` is a `TypeError`); a 5-byte string enters
the unpack loop, whose first iteration assigns `self._value[k]` although
`self._value` was never initialised in this branch, raising
`AttributeError`. -/
def fieldChecklistResponses_fromBytes (b : List Nat) :
    EB FieldChecklistResponsesV :=
  if b.length ≠ fieldChecklistResponses_NUM_RESPONSES then .error .typeError
  else .error .attributeError

/-- `FieldChecklistResponses.as_bytes`: `out = bytes(NUM_RESPONSES)` and
then `out += v << 5 | k` for each entry — adding an `int` to `bytes`
raises `TypeError` on the first entry (the mapping always has 5 entries,
so the loop always runs). -/
def fieldChecklistResponses_as_bytes (f : FieldChecklistResponsesV) :
    EB (List Nat) :=
  match f.entries with
  | [] => .ok (List.replicate fieldChecklistResponses_NUM_RESPONSES 0)
  | _ :: _ => .error .typeError

/-- `FieldUWBPosition.BYTES_PER_DIM`. -/
def fieldUWBPosition_BYTES_PER_DIM : Nat := 3

/-- `FieldUWBPosition.SIZE` (`3 * BYTES_PER_DIM`). -/
def fieldUWBPosition_SIZE : Nat := 3 * fieldUWBPosition_BYTES_PER_DIM

/-- `FieldUWBPosition.CONV_FACTOR` is the float literal `1e3`. -/
def fieldUWBPosition_CONV_FACTOR : PyNum := .pfloat 1000

/-- State of a `FieldUWBPosition` instance. -/
structure FieldUWBPositionV where
  xpos : PyNum
  ypos : PyNum
  zpos : PyNum
  deriving DecidableEq, Repr

/-- `FieldUWBPosition` value setter, `dict` branch: stores the three
coordinates. -/
def fieldUWBPosition_fromDict (x y z : PyNum) : FieldUWBPositionV := ⟨x, y, z⟩

/-- `FieldUWBPosition` value setter, `bytes` branch: only rejects a buffer
LONGER than `SIZE` (the check is `len(value) > self.SIZE`), then reads
three signed 24-bit little-endian slices from an iterator — a short buffer
silently yields short (even empty) slices — and divides each by
`CONV_FACTOR`, producing floats. -/
def fieldUWBPosition_fromBytes (b : List Nat) : EB FieldUWBPositionV :=
  if b.length > fieldUWBPosition_SIZE then .error .valueError
  else
    .ok ⟨pyDivByConst (sintLE (b.take 3)) 1000,
         pyDivByConst (sintLE ((b.drop 3).take 3)) 1000,
         pyDivByConst (sintLE ((b.drop 6).take 3)) 1000⟩

/-- `FieldUWBPosition.as_bytes`: `(self._xpos * self.CONV_FACTOR).to_bytes(...)`
for each axis.  The product with the float `CONV_FACTOR` is always a
`float`, which has no `to_bytes` attribute. -/
def fieldUWBPosition_as_bytes (f : FieldUWBPositionV) : EB (List Nat) := do
  let x ← pyNum_to_bytes_signed 3 (pymul f.xpos fieldUWBPosition_CONV_FACTOR)
  let y ← pyNum_to_bytes_signed 3 (pymul f.ypos fieldUWBPosition_CONV_FACTOR)
  let z ← pyNum_to_bytes_signed 3 (pymul f.zpos fieldUWBPosition_CONV_FACTOR)
  .ok (x ++ y ++ z)

/-- `FieldGPSPosition.BYTES_PER_COORD`. -/
def fieldGPSPosition_BYTES_PER_COORD : Nat := 4

/-- `FieldGPSPosition.SIZE` (`2 * BYTES_PER_COORD`). -/
def fieldGPSPosition_SIZE : Nat := 2 * fieldGPSPosition_BYTES_PER_COORD

/-- State of a `FieldGPSPosition` instance. -/
structure FieldGPSPositionV where
  lat : PyNum
  lon : PyNum
  deriving DecidableEq, Repr

/-- `FieldGPSPosition` value setter, `dict` branch. -/
def fieldGPSPosition_fromDict (lat lon : PyNum) : FieldGPSPositionV := ⟨lat, lon⟩

/-- `FieldGPSPosition` value setter, `bytes` branch: as with UWB, only a
buffer longer than `SIZE` is rejected; each coordinate is a signed 32-bit
little-endian slice divided by `CONV_FACTOR = 1e7`. -/
def fieldGPSPosition_fromBytes (b : List Nat) : EB FieldGPSPositionV :=
  if b.length > fieldGPSPosition_SIZE then .error .valueError
  else
    .ok ⟨pyDivByConst (sintLE (b.take 4)) 10000000,
         pyDivByConst (sintLE ((b.drop 4).take 4)) 10000000⟩

/-- `FieldGPSPosition.as_bytes`: `int(self._lat * self.CONV_FACTOR)
.to_bytes(4, 'little', signed=True)` for each coordinate (here, unlike
UWB, the product is first converted to `int`). -/
def fieldGPSPosition_as_bytes (f : FieldGPSPositionV) : EB (List Nat) := do
  let la ← pyNum_to_bytes_signed 4 (.pint (pyTrunc (pymul f.lat (.pfloat 10000000))))
  let lo ← pyNum_to_bytes_signed 4 (.pint (pyTrunc (pymul f.lon (.pfloat 10000000))))
  .ok (la ++ lo)

/-- `FieldUID.SIZE`. -/
def fieldUID_SIZE : Nat := 4

/-- `FieldTagID.SIZE`. -/
def fieldTagID_SIZE : Nat := 8

/-- `FieldUsername.SIZE`. -/
def fieldUsername_SIZE : Nat := 16

/-- `FieldPayloadLength.SIZE`. -/
def fieldPayloadLength_SIZE : Nat := 2

/-- `FieldChecklistSegment.SIZE` (a `FieldBinary` of 31 bytes). -/
def fieldChecklistSegment_SIZE : Nat := 31

/-- `FieldUserQuestionSegment.SIZE` (a `FieldBinary` of 31 bytes). -/
def fieldUserQuestionSegment_SIZE : Nat := 31

/-- `FieldFrameCounter.SIZE`. -/
def fieldFrameCounter_SIZE : Nat := 2

/-- `FieldVehicleName.SIZE` (a `FieldText` of 16 bytes). -/
def fieldVehicleName_SIZE : Nat := 16

/-- `FieldTimestamp.SIZE`. -/
def fieldTimestamp_SIZE : Nat := 4

/-- `FieldUserQuestion.SIZE` (a `FieldJSON` of 4096 bytes). -/
def fieldUserQuestion_SIZE : Nat := 4096

/-- `FieldChecklistData.SIZE` (a `FieldJSON` of 4096 bytes). -/
def fieldChecklistData_SIZE : Nat := 4096

/-- `FieldUserQuestionResponse.SIZE` (a `FieldVarLenList` of 10 bytes). -/
def fieldUserQuestionResponse_SIZE : Nat := 10

/-- State of a `FieldJSON` instance: the stored (already parsed)
document.  The setter always assigns or raises, so there is no `None`
state. -/
structure FieldJSONV where
  length : Nat
  value : Json

/-- `FieldJSON` value setter, non-`bytes` branch: serialize the value and
reject it when the serialization exceeds the field length, otherwise
store the value itself.  (The `bytes` branch — NUL-truncate then
`json.loads` — would need a JSON parser; no claim exercises it and it is
not modelled.) -/
def fieldJSON_fromValue (len : Nat) (v : Json) : EB FieldJSONV :=
  if (jsonDumps v).length > len then .error .valueError
  else .ok ⟨len, v⟩

/-- `FieldJSON.as_bytes`: `((json.dumps(value) + '\0' * length)[0:length])
.encode()` — the serialization NUL-padded to the width and truncated to
it. -/
def fieldJSON_as_bytes (f : FieldJSONV) : List Nat :=
  (jsonDumps f.value ++ List.replicate f.length 0).take f.length

/-- State of a `FieldVarLenList` instance (the stored boolean list). -/
structure FieldVarLenListV where
  length : Nat
  value : List Bool
  deriving DecidableEq, Repr

/-- `FieldVarLenList` value setter, `list` branch: rejects a list longer
than `length - 1`. -/
def fieldVarLenList_fromList (len : Nat) (l : List Bool) : EB FieldVarLenListV :=
  if l.length > len - 1 then .error .valueError
  else .ok ⟨len, l⟩

/-- `FieldVarLenList` value setter, `bytes` branch: exact length
required; `raw[0]` is the count and the following that many bytes are
read as booleans. -/
def fieldVarLenList_fromBytes (len : Nat) (b : List Nat) : EB FieldVarLenListV :=
  if b.length ≠ len then .error .valueError
  else
    match b with
    | [] => .ok ⟨len, []⟩
    | n :: rest => .ok ⟨len, (rest.take n).map (fun x => x != 0)⟩

/-- `FieldVarLenList.as_bytes`: `bytes([len(value)])` (raises
`ValueError` past 255) + booleans as bytes + `bytes(20)` of hard-coded
zero padding, truncated to the field length. -/
def fieldVarLenList_as_bytes (f : FieldVarLenListV) : EB (List Nat) := do
  let hd ← byte1 (f.value.length : Int)
  .ok ((hd ++ f.value.map (fun x : Bool => if x then 1 else 0) ++
        List.replicate 20 0).take f.length)

/-! ## Message codecs (`message_codecs.py`) -/

/-- Structured (`as_dict`) values: the Python values that can sit in a
message's dict form in this code base: `None`, `int` (a `bool` stored as
an int compares equal to 0/1), a genuine `bool`, `str`, raw `bytes` from
a binary field, a parsed JSON document, the question-id → answer mapping
of a checklist-responses field, the bool list of a variable-length-list
field, and the coordinate-name → number dicts the position fields'
`value` properties build. -/
inductive PyVal where
  | vnone
  | vint (i : Int)
  | vbool (b : Bool)
  | vstr (s : List Nat)
  | vbytes (b : List Nat)
  | vjson (j : Json)
  | vintMap (m : List (Nat × Nat))
  | vboolList (l : List Bool)
  | vnumMap (m : List (List Nat × PyNum))

/-- The `.value` of an integer field as a dict entry. -/
def intFieldVal (f : FieldIntegerV) : PyVal :=
  match f.value with
  | none => .vnone
  | some i => .vint i

/-- The `.value` of a text field as a dict entry. -/
def textFieldVal (f : FieldTextV) : PyVal :=
  match f.value with
  | none => .vnone
  | some s => .vstr s

/-- The `.value` of a binary field as a dict entry (raw bytes). -/
def binFieldVal (f : FieldBinaryV) : PyVal :=
  match f.value with
  | none => .vnone
  | some b => .vbytes b

/-- The possible runtime types of a value handed to a `FieldBinary`
setter. -/
inductive PyBytesLike where
  | pbytes (b : List Nat)
  | plist (l : List Nat)
  | pstr (s : List Nat)
  deriving DecidableEq, Repr

/-- Dynamic dispatch of the `FieldBinary` value setter on the input's
runtime type. -/
def fieldBinary_set (len : Nat) : PyBytesLike → EB FieldBinaryV
  | .pbytes b => fieldBinary_fromBytes len b
  | .plist l => fieldBinary_fromList len l
  | .pstr s => fieldBinary_fromStr len s

/-- The message variants defined in `message_codecs.py` (18 classes). -/
inductive MsgName where
  | loginRequest | loginResponse | logoutNotification
  | checklistUpdateStart | checklistUpdateSegment | checklistUpdate
  | checklistResponses | checklistVersionNotification
  | userQuestionStart | userQuestionSegment | userQuestion
  | userQuestionResponse | impactReport | vehicleReport | tagConfig
  | setBlockStatus | timeRequest | timeSet
  deriving DecidableEq, Repr

/-- `MsgLoginRequest.TYPE`. -/
def msgLoginRequest_TYPE : Nat := 1

/-- `MsgLoginResponse.TYPE`. -/
def msgLoginResponse_TYPE : Nat := 2

/-- `MsgLogoutNotification.TYPE`. -/
def msgLogoutNotification_TYPE : Nat := 3

/-- `MsgChecklistUpdateStart.TYPE`. -/
def msgChecklistUpdateStart_TYPE : Nat := 5

/-- `MsgChecklistUpdateSegment.TYPE`. -/
def msgChecklistUpdateSegment_TYPE : Nat := 6

/-- `MsgChecklistUpdate.TYPE`. -/
def msgChecklistUpdate_TYPE : Nat := 7

/-- `MsgChecklistResponses.TYPE`. -/
def msgChecklistResponses_TYPE : Nat := 8

/-- `MsgChecklistVersionNotification.TYPE`. -/
def msgChecklistVersionNotification_TYPE : Nat := 10

/-- `MsgUserQuestionStart.TYPE`. -/
def msgUserQuestionStart_TYPE : Nat := 11

/-- `MsgUserQuestionSegment.TYPE`. -/
def msgUserQuestionSegment_TYPE : Nat := 12

/-- `MsgUserQuestion.TYPE`. -/
def msgUserQuestion_TYPE : Nat := 13

/-- `MsgUserQuestionResponse.TYPE`. -/
def msgUserQuestionResponse_TYPE : Nat := 14

/-- `MsgImpactReport.TYPE`. -/
def msgImpactReport_TYPE : Nat := 15

/-- `MsgVehicleReport.TYPE`. -/
def msgVehicleReport_TYPE : Nat := 16

/-- `MsgSetBlockStatus.TYPE`. -/
def msgSetBlockStatus_TYPE : Nat := 17

/-- `MsgTimeRequest.TYPE`. -/
def msgTimeRequest_TYPE : Nat := 18

/-- `MsgTimeSet.TYPE`. -/
def msgTimeSet_TYPE : Nat := 19

/-- `MsgTagConfig.TYPE`. -/
def msgTagConfig_TYPE : Nat := 20

/-- `MsgLoginRequest.NAME`. -/
def msgLoginRequest_NAME : List Nat := pystr "login_request"

/-- `MsgLoginResponse.NAME`. -/
def msgLoginResponse_NAME : List Nat := pystr "login_response"

/-- `MsgChecklistUpdateStart.NAME`. -/
def msgChecklistUpdateStart_NAME : List Nat := pystr "checklist_update_start"

/-- `MsgChecklistUpdateSegment.NAME`. -/
def msgChecklistUpdateSegment_NAME : List Nat := pystr "checklist_update_segment"

/-- `MsgTagConfig.NAME`. -/
def msgTagConfig_NAME : List Nat := pystr "tag_config"

/-- In-memory state of a constructed `MsgLoginRequest`. -/
structure MsgLoginRequestRec where
  uid : FieldIntegerV
  tagid : FieldIntegerV
  deriving DecidableEq, Repr

/-- The structured (`dict`) input of `MsgLoginRequest.__init__`; `none`
models an absent key. -/
structure LoginRequestDict where
  type? : Option (List Nat)
  uid? : Option Int
  tagid? : Option Int

/-- `MsgLoginRequest.__init__`, `bytes` branch: check the leading type
byte, read a 4-byte UID and an 8-byte TagID from the iterator, and assert
the iterator is exhausted. -/
def msgLoginRequest_fromBytes (b : List Nat) : EB MsgLoginRequestRec :=
  match b with
  | [] => .error .stopIteration
  | t :: r =>
      if t ≠ msgLoginRequest_TYPE then .error .valueError
      else do
        let uid ← fieldInteger_fromBytes fieldUID_SIZE (r.take 4)
        let tagid ← fieldInteger_fromBytes fieldTagID_SIZE ((r.drop 4).take 8)
        if r.drop 12 ≠ [] then .error .assertionError
        else .ok ⟨uid, tagid⟩

/-- The guard `if 'type' in value and value['type'] != self.NAME`, shared
by every message class's `dict` branch: `true` when a `type` key is
present and differs from the expected name. -/
def typeTagMismatch (t? : Option (List Nat)) (name : List Nat) : Bool :=
  match t? with
  | some n => n ≠ name
  | none => false

/-- `MsgLoginRequest.__init__`, `dict` branch: optional `type` tag check,
then `uid` read with `value['uid']` (raises `KeyError` when absent) and
`tagid` read with `value.get('tagid', None)` (defaults to `None`). -/
def msgLoginRequest_fromDict (d : LoginRequestDict) : EB MsgLoginRequestRec :=
  if typeTagMismatch d.type? msgLoginRequest_NAME then .error .valueError
  else
    match d.uid? with
    | none => .error .keyError
    | some u =>
        .ok ⟨fieldInteger_fromInt fieldUID_SIZE u,
             match d.tagid? with
             | none => fieldInteger_fromNone fieldTagID_SIZE
             | some t => fieldInteger_fromInt fieldTagID_SIZE t⟩

/-- `MsgLoginRequest.as_bytes`: type byte, then `uid` and `tagid` bytes. -/
def msgLoginRequest_as_bytes (m : MsgLoginRequestRec) : EB (List Nat) := do
  let u ← fieldInteger_as_bytes m.uid
  let t ← fieldInteger_as_bytes m.tagid
  .ok (msgLoginRequest_TYPE :: u ++ t)

/-- `MsgLoginRequest.as_dict`. -/
def msgLoginRequest_as_dict (m : MsgLoginRequestRec) : List (List Nat × PyVal) :=
  [(pystr "type", .vstr msgLoginRequest_NAME),
   (pystr "uid", intFieldVal m.uid),
   (pystr "tagid", intFieldVal m.tagid)]

/-- In-memory state of a constructed `MsgLoginResponse`.  `response` and
`profile` are plain Python ints on the instance (a `bool` compares equal
to 0/1, so it is stored as its integer value). -/
structure MsgLoginResponseRec where
  response : Int
  uid : FieldIntegerV
  username : FieldTextV
  profile : Int
  deriving DecidableEq, Repr

/-- The structured input of `MsgLoginResponse.__init__`. -/
structure LoginResponseDict where
  type? : Option (List Nat)
  response? : Option Int
  username? : Option (List Nat)
  uid? : Option Int
  profile? : Option Int

/-- `MsgLoginResponse.__init__`, `bytes` branch.  Reads, in this order:
type byte, 1 response byte, 4 UID bytes, 16 username bytes, 1 profile
byte, then asserts exhaustion.  (Note the order differs from `as_bytes`,
which writes the username before the UID.) -/
def msgLoginResponse_fromBytes (b : List Nat) : EB MsgLoginResponseRec :=
  match b with
  | [] => .error .stopIteration
  | t :: r =>
      if t ≠ msgLoginResponse_TYPE then .error .valueError
      else
        match r with
        | [] => .error .stopIteration
        | resp :: r2 => do
            let uid ← fieldInteger_fromBytes fieldUID_SIZE (r2.take 4)
            let username ← fieldText_fromBytes fieldUsername_SIZE ((r2.drop 4).take 16)
            match r2.drop 20 with
            | [] => .error .stopIteration
            | prof :: r3 =>
                if r3 ≠ [] then .error .assertionError
                else .ok ⟨(resp : Int), uid, username, (prof : Int)⟩

/-- `MsgLoginResponse.__init__`, `dict` branch: `bool(value['response'])`
(an int is truthy iff nonzero), `username` and `uid` with `.get(..., None)`,
`int(value['profile'])`. -/
def msgLoginResponse_fromDict (d : LoginResponseDict) : EB MsgLoginResponseRec :=
  if typeTagMismatch d.type? msgLoginResponse_NAME then .error .valueError
  else
    match d.response? with
    | none => .error .keyError
    | some rv => do
        let username ←
          match d.username? with
          | none => .ok (fieldText_fromNone fieldUsername_SIZE)
          | some s => fieldText_fromStr fieldUsername_SIZE s
        let uid :=
          match d.uid? with
          | none => fieldInteger_fromNone fieldUID_SIZE
          | some u => fieldInteger_fromInt fieldUID_SIZE u
        match d.profile? with
        | none => .error .keyError
        | some p => .ok ⟨if rv = 0 then 0 else 1, uid, username, p⟩

/-- `MsgLoginResponse.as_bytes`: type byte, `bytes([response])`, then
USERNAME bytes, then UID bytes, then `bytes([profile])` — the username
is written before the UID, the opposite of the `bytes` constructor's
reading order (the class docstring gives the layout
`[ type(1) | response(1) | uid(4) | username(16) | profile(1) ]`). -/
def msgLoginResponse_as_bytes (m : MsgLoginResponseRec) : EB (List Nat) := do
  let rb ← byte1 m.response
  let ub ← fieldText_as_bytes m.username
  let ib ← fieldInteger_as_bytes m.uid
  let pb ← byte1 m.profile
  .ok (msgLoginResponse_TYPE :: rb ++ ub ++ ib ++ pb)

/-- In-memory state of a constructed `MsgImpactReport`. -/
structure MsgImpactReportRec where
  tagid : FieldIntegerV
  severity : Int
  accel_direction : Int
  deriving DecidableEq, Repr

/-- `MsgImpactReport.__init__`, `bytes` branch. -/
def msgImpactReport_fromBytes (b : List Nat) : EB MsgImpactReportRec :=
  match b with
  | [] => .error .stopIteration
  | t :: r =>
      if t ≠ msgImpactReport_TYPE then .error .valueError
      else do
        let tagid ← fieldInteger_fromBytes fieldTagID_SIZE (r.take 8)
        match r.drop 8 with
        | [] => .error .stopIteration
        | sev :: r2 =>
            match r2 with
            | [] => .error .stopIteration
            | acc :: r3 =>
                if r3 ≠ [] then .error .assertionError
                else .ok ⟨tagid, (sev : Int), (acc : Int)⟩

/-- `MsgImpactReport.as_bytes`: after appending the type byte, the tagid
bytes and `bytes([self.severity])`, the source evaluates
`bytes([accel_direction])` — a bare name with no `self.`, which is
unbound and raises `NameError`. -/
def msgImpactReport_as_bytes (m : MsgImpactReportRec) : EB (List Nat) := do
  let _ ← fieldInteger_as_bytes m.tagid
  let _ ← byte1 m.severity
  .error .nameError

/-- In-memory state of a constructed `MsgVehicleReport`. -/
structure MsgVehicleReportRec where
  tagid : FieldIntegerV
  frame_counter : FieldIntegerV
  uwbpos : FieldUWBPositionV
  gpspos : FieldGPSPositionV
  deriving DecidableEq, Repr

/-- `MsgVehicleReport.__init__`, `bytes` branch: type byte, 8 tagid bytes,
2 frame-counter bytes, then UP TO 9 bytes for the UWB position and UP TO 8
for the GPS position (`bytes(islice(it, n))` yields fewer bytes when the
iterator runs out, and the position fields accept any buffer not LONGER
than their size), then the exhaustion assert. -/
def msgVehicleReport_fromBytes (b : List Nat) : EB MsgVehicleReportRec :=
  match b with
  | [] => .error .stopIteration
  | t :: r =>
      if t ≠ msgVehicleReport_TYPE then .error .valueError
      else do
        let tagid ← fieldInteger_fromBytes fieldTagID_SIZE (r.take 8)
        let fcnt ← fieldInteger_fromBytes fieldFrameCounter_SIZE ((r.drop 8).take 2)
        let uwb ← fieldUWBPosition_fromBytes ((r.drop 10).take 9)
        let gps ← fieldGPSPosition_fromBytes ((r.drop 19).take 8)
        if r.drop 27 ≠ [] then .error .assertionError
        else .ok ⟨tagid, fcnt, uwb, gps⟩

/-- `MsgChecklistUpdate.__init__`, `bytes` branch: after the type-byte
check it evaluates `fc.FieldChecklistdData(...)` — a misspelling of
`FieldChecklistData` — so the module attribute lookup raises
`AttributeError` and no `MsgChecklistUpdate` can ever be built from
bytes. -/
def msgChecklistUpdate_fromBytes (b : List Nat) : EB Unit :=
  match b with
  | [] => .error .stopIteration
  | t :: _ =>
      if t ≠ msgChecklistUpdate_TYPE then .error .valueError
      else .error .attributeError

/-- In-memory state of a constructed `MsgChecklistUpdateStart`. -/
structure MsgChecklistUpdateStartRec where
  segments : Int
  checklist_version : Int
  length : FieldIntegerV
  deriving DecidableEq, Repr

/-- The structured input of `MsgChecklistUpdateStart.__init__`. -/
structure ChecklistUpdateStartDict where
  type? : Option (List Nat)
  segments? : Option Int
  checklist_version? : Option Int
  length? : Option Int

/-- `MsgChecklistUpdateStart.__init__`, `dict` branch:
`int(value['segments'])`, `int(value['checklist_version'])`,
`FieldPayloadLength(value['length'])`. -/
def msgChecklistUpdateStart_fromDict (d : ChecklistUpdateStartDict) :
    EB MsgChecklistUpdateStartRec :=
  if typeTagMismatch d.type? msgChecklistUpdateStart_NAME then .error .valueError
  else
    match d.segments?, d.checklist_version?, d.length? with
    | some s, some v, some l =>
        .ok ⟨s, v, fieldInteger_fromInt fieldPayloadLength_SIZE l⟩
    | _, _, _ => .error .keyError

/-- `MsgChecklistUpdateStart.as_bytes`. -/
def msgChecklistUpdateStart_as_bytes (m : MsgChecklistUpdateStartRec) :
    EB (List Nat) := do
  let sb ← byte1 m.segments
  let vb ← byte1 m.checklist_version
  let lb ← fieldInteger_as_bytes m.length
  .ok (msgChecklistUpdateStart_TYPE :: sb ++ vb ++ lb)

/-- `MsgChecklistUpdateStart.as_dict`. -/
def msgChecklistUpdateStart_as_dict (m : MsgChecklistUpdateStartRec) :
    List (List Nat × PyVal) :=
  [(pystr "type", .vstr msgChecklistUpdateStart_NAME),
   (pystr "segments", .vint m.segments),
   (pystr "checklist_version", .vint m.checklist_version),
   (pystr "length", intFieldVal m.length)]

/-- In-memory state of a constructed `MsgChecklistUpdateSegment`. -/
structure MsgChecklistUpdateSegmentRec where
  checklist_version : Int
  seq_no : Int
  segment : FieldBinaryV
  deriving DecidableEq, Repr

/-- The structured input of `MsgChecklistUpdateSegment.__init__`. -/
structure ChecklistUpdateSegmentDict where
  type? : Option (List Nat)
  checklist_version? : Option Int
  seq_no? : Option Int
  segment? : Option PyBytesLike

/-- `MsgChecklistUpdateSegment.__init__`, `dict` branch. -/
def msgChecklistUpdateSegment_fromDict (d : ChecklistUpdateSegmentDict) :
    EB MsgChecklistUpdateSegmentRec :=
  if typeTagMismatch d.type? msgChecklistUpdateSegment_NAME then .error .valueError
  else
    match d.checklist_version?, d.seq_no?, d.segment? with
    | some v, some n, some seg => do
        let s ← fieldBinary_set fieldChecklistSegment_SIZE seg
        .ok ⟨v, n, s⟩
    | _, _, _ => .error .keyError

/-- `MsgChecklistUpdateSegment.as_bytes`. -/
def msgChecklistUpdateSegment_as_bytes (m : MsgChecklistUpdateSegmentRec) :
    EB (List Nat) := do
  let vb ← byte1 m.checklist_version
  let nb ← byte1 m.seq_no
  let sb ← fieldBinary_as_bytes m.segment
  .ok (msgChecklistUpdateSegment_TYPE :: vb ++ nb ++ sb)

/-- `MsgChecklistUpdateSegment.as_dict` (note: the `segment` entry is the
field's raw `bytes` value). -/
def msgChecklistUpdateSegment_as_dict (m : MsgChecklistUpdateSegmentRec) :
    List (List Nat × PyVal) :=
  [(pystr "type", .vstr msgChecklistUpdateSegment_NAME),
   (pystr "checklist_version", .vint m.checklist_version),
   (pystr "seq_no", .vint m.seq_no),
   (pystr "segment", binFieldVal m.segment)]

/-- In-memory state of a constructed `MsgTagConfig`. -/
structure MsgTagConfigRec where
  crash_sens : Int
  report_rate : Int
  vehicle_name : FieldTextV
  deriving DecidableEq, Repr

/-- The structured input of `MsgTagConfig.__init__`. -/
structure TagConfigDict where
  type? : Option (List Nat)
  crash_sens? : Option Int
  report_rate? : Option Int
  vehicle_name? : Option (List Nat)

/-- `MsgTagConfig.__init__`, `dict` branch. -/
def msgTagConfig_fromDict (d : TagConfigDict) : EB MsgTagConfigRec :=
  if typeTagMismatch d.type? msgTagConfig_NAME then .error .valueError
  else
    match d.crash_sens?, d.report_rate?, d.vehicle_name? with
    | some c, some r, some n => do
        let vn ← fieldText_fromStr fieldVehicleName_SIZE n
        .ok ⟨c, r, vn⟩
    | _, _, _ => .error .keyError

/-- `MsgTagConfig.as_bytes`. -/
def msgTagConfig_as_bytes (m : MsgTagConfigRec) : EB (List Nat) := do
  let cb ← byte1 m.crash_sens
  let rb ← byte1 m.report_rate
  let nb ← fieldText_as_bytes m.vehicle_name
  .ok (msgTagConfig_TYPE :: cb ++ rb ++ nb)

/-- `MsgTagConfig.as_dict`: unlike every other message class, the
returned dict has NO `type` entry — only the three field keys. -/
def msgTagConfig_as_dict (m : MsgTagConfigRec) : List (List Nat × PyVal) :=
  [(pystr "crash_sens", .vint m.crash_sens),
   (pystr "report_rate", .vint m.report_rate),
   (pystr "vehicle_name", textFieldVal m.vehicle_name)]

/-- `MsgLogoutNotification.NAME`. -/
def msgLogoutNotification_NAME : List Nat := pystr "logout_notification"

/-- `MsgChecklistUpdate.NAME`. -/
def msgChecklistUpdate_NAME : List Nat := pystr "checklist_update"

/-- `MsgChecklistResponses.NAME`. -/
def msgChecklistResponses_NAME : List Nat := pystr "checklist_responses"

/-- `MsgChecklistVersionNotification.NAME`. -/
def msgChecklistVersionNotification_NAME : List Nat :=
  pystr "checklist_version_notification"

/-- `MsgUserQuestionStart.NAME`. -/
def msgUserQuestionStart_NAME : List Nat := pystr "user_question_start"

/-- `MsgUserQuestionSegment.NAME`. -/
def msgUserQuestionSegment_NAME : List Nat := pystr "user_question_segment"

/-- `MsgUserQuestion.NAME`. -/
def msgUserQuestion_NAME : List Nat := pystr "user_question"

/-- `MsgUserQuestionResponse.NAME`. -/
def msgUserQuestionResponse_NAME : List Nat := pystr "user_question_response"

/-- `MsgImpactReport.NAME`. -/
def msgImpactReport_NAME : List Nat := pystr "impact_report"

/-- `MsgVehicleReport.NAME`. -/
def msgVehicleReport_NAME : List Nat := pystr "vehicle_report"

/-- `MsgSetBlockStatus.NAME`. -/
def msgSetBlockStatus_NAME : List Nat := pystr "set_block_status"

/-- `MsgTimeRequest.NAME`. -/
def msgTimeRequest_NAME : List Nat := pystr "time_request"

/-- `MsgTimeSet.NAME`. -/
def msgTimeSet_NAME : List Nat := pystr "time_set"

/-- The `.value` of a JSON field as a dict entry (the stored document). -/
def jsonFieldVal (f : FieldJSONV) : PyVal := .vjson f.value

/-- The `.value` of a checklist-responses field as a dict entry (the
question-id → answer mapping). -/
def crFieldVal (f : FieldChecklistResponsesV) : PyVal := .vintMap f.entries

/-- The `.value` of a variable-length-list field as a dict entry. -/
def varLenFieldVal (f : FieldVarLenListV) : PyVal := .vboolList f.value

/-- The `.value` property of a `FieldUWBPosition` as a dict entry:
`{'xpos': ..., 'ypos': ..., 'zpos': ...}`. -/
def uwbFieldVal (f : FieldUWBPositionV) : PyVal :=
  .vnumMap [(pystr "xpos", f.xpos), (pystr "ypos", f.ypos), (pystr "zpos", f.zpos)]

/-- The `.value` property of a `FieldGPSPosition` as a dict entry:
`{'lat': ..., 'lon': ...}`. -/
def gpsFieldVal (f : FieldGPSPositionV) : PyVal :=
  .vnumMap [(pystr "lat", f.lat), (pystr "lon", f.lon)]

/-- `MsgLoginResponse.as_dict`. -/
def msgLoginResponse_as_dict (m : MsgLoginResponseRec) : List (List Nat × PyVal) :=
  [(pystr "type", .vstr msgLoginResponse_NAME),
   (pystr "response", .vint m.response),
   (pystr "username", textFieldVal m.username),
   (pystr "uid", intFieldVal m.uid),
   (pystr "profile", .vint m.profile)]

/-- In-memory state of a constructed `MsgLogoutNotification`. -/
structure MsgLogoutNotificationRec where
  tagid : FieldIntegerV
  deriving DecidableEq, Repr

/-- `MsgLogoutNotification.as_dict`. -/
def msgLogoutNotification_as_dict (m : MsgLogoutNotificationRec) :
    List (List Nat × PyVal) :=
  [(pystr "type", .vstr msgLogoutNotification_NAME),
   (pystr "tagid", intFieldVal m.tagid)]

/-- In-memory state of a constructed `MsgChecklistUpdate` (only the
`dict`/JSON branch can build one; the bytes branch always raises). -/
structure MsgChecklistUpdateRec where
  checklist_version : Int
  checklist_data : FieldJSONV

/-- `MsgChecklistUpdate.as_dict`. -/
def msgChecklistUpdate_as_dict (m : MsgChecklistUpdateRec) :
    List (List Nat × PyVal) :=
  [(pystr "type", .vstr msgChecklistUpdate_NAME),
   (pystr "checklist_version", .vint m.checklist_version),
   (pystr "checklist_data", jsonFieldVal m.checklist_data)]

/-- In-memory state of a constructed `MsgChecklistResponses`. -/
structure MsgChecklistResponsesRec where
  tagid : FieldIntegerV
  responses : FieldChecklistResponsesV
  checklist_version : Int
  deriving DecidableEq, Repr

/-- `MsgChecklistResponses.as_dict`. -/
def msgChecklistResponses_as_dict (m : MsgChecklistResponsesRec) :
    List (List Nat × PyVal) :=
  [(pystr "type", .vstr msgChecklistResponses_NAME),
   (pystr "tagid", intFieldVal m.tagid),
   (pystr "responses", crFieldVal m.responses),
   (pystr "checklist_version", .vint m.checklist_version)]

/-- In-memory state of a constructed `MsgChecklistVersionNotification`. -/
structure MsgChecklistVersionNotificationRec where
  checklist_version : Int
  deriving DecidableEq, Repr

/-- `MsgChecklistVersionNotification.as_dict`. -/
def msgChecklistVersionNotification_as_dict
    (m : MsgChecklistVersionNotificationRec) : List (List Nat × PyVal) :=
  [(pystr "type", .vstr msgChecklistVersionNotification_NAME),
   (pystr "checklist_version", .vint m.checklist_version)]

/-- In-memory state of a constructed `MsgUserQuestionStart`. -/
structure MsgUserQuestionStartRec where
  question_id : Int
  segments : Int
  length : FieldIntegerV
  deriving DecidableEq, Repr

/-- `MsgUserQuestionStart.as_dict`. -/
def msgUserQuestionStart_as_dict (m : MsgUserQuestionStartRec) :
    List (List Nat × PyVal) :=
  [(pystr "type", .vstr msgUserQuestionStart_NAME),
   (pystr "question_id", .vint m.question_id),
   (pystr "segments", .vint m.segments),
   (pystr "length", intFieldVal m.length)]

/-- The structured input of `MsgUserQuestionSegment.__init__`. -/
structure UserQuestionSegmentDict where
  type? : Option (List Nat)
  question_id? : Option Int
  seq_no? : Option Int
  data? : Option PyBytesLike

/-- `MsgUserQuestionSegment.__init__`, `bytes` branch: after the type
byte and the two `next(it)` reads it evaluates
`fc.FieldUserQuestionData(...)` — no class of that name exists in
`field_codecs` (only `FieldUserQuestionSegment` does), so the module
attribute lookup raises `AttributeError`.  No `MsgUserQuestionSegment`
can ever be built from bytes. -/
def msgUserQuestionSegment_fromBytes (b : List Nat) : EB Unit :=
  match b with
  | [] => .error .stopIteration
  | t :: r =>
      if t ≠ msgUserQuestionSegment_TYPE then .error .valueError
      else
        match r with
        | [] => .error .stopIteration
        | _ :: r2 =>
            match r2 with
            | [] => .error .stopIteration
            | _ :: _ => .error .attributeError

/-- `MsgUserQuestionSegment.__init__`, `dict` branch: the same
nonexistent `fc.FieldUserQuestionData` is looked up (before its argument
`value['data']` is evaluated), so after the type check and the
`question_id`/`seq_no` reads every structured construction raises
`AttributeError` too.  The class's `as_dict` is therefore dead code: no
instance ever exists. -/
def msgUserQuestionSegment_fromDict (d : UserQuestionSegmentDict) : EB Unit :=
  if typeTagMismatch d.type? msgUserQuestionSegment_NAME then .error .valueError
  else
    match d.question_id?, d.seq_no? with
    | some _, some _ => .error .attributeError
    | _, _ => .error .keyError

/-- In-memory state of a constructed `MsgUserQuestion` (built via the
`dict`/JSON branch). -/
structure MsgUserQuestionRec where
  question_id : Int
  user_question : FieldJSONV

/-- `MsgUserQuestion.as_dict`. -/
def msgUserQuestion_as_dict (m : MsgUserQuestionRec) : List (List Nat × PyVal) :=
  [(pystr "type", .vstr msgUserQuestion_NAME),
   (pystr "question_id", .vint m.question_id),
   (pystr "user_question", jsonFieldVal m.user_question)]

/-- In-memory state of a constructed `MsgUserQuestionResponse`. -/
structure MsgUserQuestionResponseRec where
  tagid : FieldIntegerV
  question_id : Int
  responses : FieldVarLenListV
  deriving DecidableEq, Repr

/-- `MsgUserQuestionResponse.as_dict`. -/
def msgUserQuestionResponse_as_dict (m : MsgUserQuestionResponseRec) :
    List (List Nat × PyVal) :=
  [(pystr "type", .vstr msgUserQuestionResponse_NAME),
   (pystr "tagid", intFieldVal m.tagid),
   (pystr "question_id", .vint m.question_id),
   (pystr "responses", varLenFieldVal m.responses)]

/-- `MsgImpactReport.as_dict`. -/
def msgImpactReport_as_dict (m : MsgImpactReportRec) : List (List Nat × PyVal) :=
  [(pystr "type", .vstr msgImpactReport_NAME),
   (pystr "tagid", intFieldVal m.tagid),
   (pystr "severity", .vint m.severity),
   (pystr "accel_direction", .vint m.accel_direction)]

/-- `MsgVehicleReport.as_dict`. -/
def msgVehicleReport_as_dict (m : MsgVehicleReportRec) : List (List Nat × PyVal) :=
  [(pystr "type", .vstr msgVehicleReport_NAME),
   (pystr "tagid", intFieldVal m.tagid),
   (pystr "frame_counter", intFieldVal m.frame_counter),
   (pystr "uwbpos", uwbFieldVal m.uwbpos),
   (pystr "gpspos", gpsFieldVal m.gpspos)]

/-- In-memory state of a constructed `MsgSetBlockStatus` (`block_status`
is `bool(...)` in both branches). -/
structure MsgSetBlockStatusRec where
  tagid : FieldIntegerV
  block_status : Bool
  deriving DecidableEq, Repr

/-- `MsgSetBlockStatus.as_dict`. -/
def msgSetBlockStatus_as_dict (m : MsgSetBlockStatusRec) :
    List (List Nat × PyVal) :=
  [(pystr "type", .vstr msgSetBlockStatus_NAME),
   (pystr "tagid", intFieldVal m.tagid),
   (pystr "block_status", .vbool m.block_status)]

/-- In-memory state of a constructed `MsgTimeRequest`. -/
structure MsgTimeRequestRec where
  tagid : FieldIntegerV
  deriving DecidableEq, Repr

/-- `MsgTimeRequest.as_dict`. -/
def msgTimeRequest_as_dict (m : MsgTimeRequestRec) : List (List Nat × PyVal) :=
  [(pystr "type", .vstr msgTimeRequest_NAME),
   (pystr "tagid", intFieldVal m.tagid)]

/-- In-memory state of a constructed `MsgTimeSet`. -/
structure MsgTimeSetRec where
  timestamp : FieldIntegerV
  deriving DecidableEq, Repr

/-- `MsgTimeSet.as_dict`. -/
def msgTimeSet_as_dict (m : MsgTimeSetRec) : List (List Nat × PyVal) :=
  [(pystr "type", .vstr msgTimeSet_NAME),
   (pystr "timestamp", intFieldVal m.timestamp)]

/-- The `typecode_to_msg` dict literal of `parse_bytes`, in source order.
It has 16 entries: `MsgChecklistUpdate` (code 7) and `MsgUserQuestion`
(code 13) are absent. -/
def typecode_to_msg : List (Nat × MsgName) :=
  [(msgLoginRequest_TYPE, .loginRequest),
   (msgLoginResponse_TYPE, .loginResponse),
   (msgLogoutNotification_TYPE, .logoutNotification),
   (msgChecklistUpdateStart_TYPE, .checklistUpdateStart),
   (msgChecklistUpdateSegment_TYPE, .checklistUpdateSegment),
   (msgChecklistResponses_TYPE, .checklistResponses),
   (msgChecklistVersionNotification_TYPE, .checklistVersionNotification),
   (msgUserQuestionStart_TYPE, .userQuestionStart),
   (msgUserQuestionSegment_TYPE, .userQuestionSegment),
   (msgUserQuestionResponse_TYPE, .userQuestionResponse),
   (msgImpactReport_TYPE, .impactReport),
   (msgVehicleReport_TYPE, .vehicleReport),
   (msgTagConfig_TYPE, .tagConfig),
   (msgSetBlockStatus_TYPE, .setBlockStatus),
   (msgTimeRequest_TYPE, .timeRequest),
   (msgTimeSet_TYPE, .timeSet)]

/-- The dispatch step of `parse_bytes`: `typecode_to_msg[msg[0]]`, i.e.
which message class the leading byte selects.  A code missing from the
dict raises `KeyError` (the `UnknownType` failure). -/
def parse_bytes_dispatch (msg : List Nat) : EB MsgName :=
  match msg with
  | [] => .error .indexError
  | c :: _ =>
      match dictLookup typecode_to_msg c with
      | none => .error .keyError
      | some k => .ok k

/-! ## The splitter routines of `message_codecs.py` -/

/-- The segment-collecting `while True` loop of `checklist_splitter`:
slice 31 bytes at a time; a SHORT slice (fewer than 31 bytes, including
the EMPTY slice obtained when the data length is an exact multiple of 31)
is zero-padded to 31 bytes, appended, and ends the loop. -/
def segmentize (b : List Nat) : List (List Nat) :=
  if _h : (b.take fieldChecklistSegment_SIZE).length < fieldChecklistSegment_SIZE then
    [b.take fieldChecklistSegment_SIZE ++
      List.replicate (fieldChecklistSegment_SIZE - (b.take fieldChecklistSegment_SIZE).length) 0]
  else
    b.take fieldChecklistSegment_SIZE :: segmentize (b.drop fieldChecklistSegment_SIZE)
termination_by b.length
decreasing_by
  simp only [List.length_take, List.length_drop, fieldChecklistSegment_SIZE] at *
  omega

/-- The heterogeneous list returned by `checklist_splitter`: one
`MsgChecklistUpdateStart` followed by `MsgChecklistUpdateSegment`s. -/
inductive ChecklistSplitMsg where
  | start (m : MsgChecklistUpdateStartRec)
  | seg (m : MsgChecklistUpdateSegmentRec)
  deriving DecidableEq, Repr

/-- `checklist_splitter(checklist_data, checklist_version)`: serialize the
document with `json.dumps`, cut it into 31-byte zero-padded segments, and
build the start message followed by one segment message per segment with
sequential `seq_no` starting at 0. -/
def checklist_splitter (checklist_data : Json) (checklist_version : Int) :
    EB (List ChecklistSplitMsg) := do
  let databytes := jsonDumps checklist_data
  let segments := segmentize databytes
  let start ← msgChecklistUpdateStart_fromDict
    ⟨none, some (segments.length : Int), some checklist_version,
     some (databytes.length : Int)⟩
  let segMsgs ← segments.enum.mapM (fun p =>
    msgChecklistUpdateSegment_fromDict
      ⟨none, some checklist_version, some (p.1 : Int), some (.pbytes p.2)⟩)
  .ok (.start start :: segMsgs.map .seg)

/-- The list `user_question_splitter` would return (one
`MsgUserQuestionStart`, then `MsgUserQuestionSegment`s). -/
inductive UserQuestionSplitMsg where
  | start (question_id segments : Int) (length : FieldIntegerV)
  | seg (question_id seq_no : Int) (data : FieldBinaryV)
  deriving DecidableEq, Repr

/-- `user_question_splitter(user_question_data, question_id)`: after
serializing the document, its loop runs `segment = islice(it, 31)`
WITHOUT the `bytes(...)` wrapper that `checklist_splitter` uses, so the
very first `len(segment)` is `len()` of an `islice` object and raises
`TypeError` — the routine never produces any message. -/
def user_question_splitter (user_question_data : Json) (_question_id : Int) :
    EB (List UserQuestionSplitMsg) :=
  let _databytes := jsonDumps user_question_data
  .error .typeError


/-! ## Claim theorems -/

/-- C10: constructing a `login_request` from a structured mapping with a
`uid` key (any representable UID) but no `tagid` key succeeds and stores
`None` in the tagid field; `as_bytes` on that record then raises
`AttributeError` (from `None.to_bytes`), so the missing-field error
surfaces only at serialization, not at construction. -/
theorem loginRequest_missing_tagid_deferred_error (u : Int)
    (h0 : 0 ≤ u) (h1 : u < ((256 ^ 4 : Nat) : Int)) :
    msgLoginRequest_fromDict ⟨none, some u, none⟩ =
      .ok ⟨fieldInteger_fromInt fieldUID_SIZE u, fieldInteger_fromNone fieldTagID_SIZE⟩ ∧
    (fieldInteger_fromNone fieldTagID_SIZE).value = none ∧
    msgLoginRequest_as_bytes
      ⟨fieldInteger_fromInt fieldUID_SIZE u, fieldInteger_fromNone fieldTagID_SIZE⟩ =
      .error .attributeError := by
  refine ⟨rfl, rfl, ?_⟩
  have hbytes : fieldInteger_as_bytes (fieldInteger_fromInt fieldUID_SIZE u) =
      .ok (natToLE 4 u.toNat) := by
    have hc : ¬ (u < 0 ∨ ((256 ^ 4 : Nat) : Int) ≤ u) := by
      push_neg
      exact ⟨h0, h1⟩
    show (if u < 0 ∨ ((256 ^ 4 : Nat) : Int) ≤ u
          then (Except.error PyError.overflowError : EB (List Nat))
          else Except.ok (natToLE 4 u.toNat)) = Except.ok (natToLE 4 u.toNat)
    rw [if_neg hc]
  simp only [msgLoginRequest_as_bytes, hbytes]
  rfl

/-- C10 witness: the concrete instance `{'uid': 1}`. -/
theorem loginRequest_missing_tagid_deferred_error_witness :
    msgLoginRequest_fromDict ⟨none, some 1, none⟩ =
      .ok ⟨fieldInteger_fromInt fieldUID_SIZE 1, fieldInteger_fromNone fieldTagID_SIZE⟩ ∧
    (fieldInteger_fromNone fieldTagID_SIZE).value = none ∧
    msgLoginRequest_as_bytes
      ⟨fieldInteger_fromInt fieldUID_SIZE 1, fieldInteger_fromNone fieldTagID_SIZE⟩ =
      .error .attributeError :=
  loginRequest_missing_tagid_deferred_error 1 (by norm_num) (by norm_num)

/-- C5: on the 16-byte `FieldUsername`, a 16-byte (full-width) value
encodes to 16 bytes with no NUL, and decoding that buffer raises
`ValueError` (the dead `p == -1` guard never fires because `str.index`
raises); a value below the width (here `"bob"`) does round-trip through
its NUL-padded encoding.  The claim's full-width round-trip case fails. -/
theorem fieldText_full_width_decode_raises :
    fieldText_fromStr fieldUsername_SIZE (pystr "abcdefghijklmnop") =
      .ok ⟨16, some (pystr "abcdefghijklmnop")⟩ ∧
    fieldText_as_bytes ⟨16, some (pystr "abcdefghijklmnop")⟩ =
      .ok (pystr "abcdefghijklmnop") ∧
    (pystr "abcdefghijklmnop").length = 16 ∧
    fieldText_fromBytes fieldUsername_SIZE (pystr "abcdefghijklmnop") =
      .error .valueError ∧
    fieldText_as_bytes ⟨16, some (pystr "bob")⟩ =
      .ok (pystr "bob" ++ List.replicate 13 0) ∧
    fieldText_fromBytes fieldUsername_SIZE (pystr "bob" ++ List.replicate 13 0) =
      .ok ⟨16, some (pystr "bob")⟩ := by
  decide

/-- C2: two width-invariant violations.  A `FieldChecklistSegment`
(`FieldBinary`, width 31) built from the 2-byte string `"ab"` stores the
unpadded encoding, so `as_bytes` returns 2 bytes, not 31; and on a
`FieldChecklistResponses` built from a valid 5-entry mapping, `as_bytes`
raises `TypeError` (`bytes += int`) instead of returning 5 bytes. -/
theorem field_width_invariant_violations :
    fieldBinary_fromStr fieldChecklistSegment_SIZE (pystr "ab") =
      .ok ⟨31, some (pystr "ab")⟩ ∧
    fieldBinary_as_bytes ⟨31, some (pystr "ab")⟩ = .ok (pystr "ab") ∧
    (pystr "ab").length = 2 ∧
    fieldChecklistResponses_fromDict [(0, 1), (1, 0), (2, 2), (3, 1), (4, 0)] =
      .ok ⟨[(0, 1), (1, 0), (2, 2), (3, 1), (4, 0)]⟩ ∧
    fieldChecklistResponses_as_bytes ⟨[(0, 1), (1, 0), (2, 2), (3, 1), (4, 0)]⟩ =
      .error .typeError := by
  decide

/-- C7: every path of the checklist-responses codec that the claim
exercises raises.  Constructing from the 2-entry mapping `{3: 2, 7: 0}`
raises while formatting the length-mismatch message (`KeyError`);
decoding the single byte `0x43` (low 5 bits 3, high 3 bits 2) raises
`TypeError` in the same length check; decoding a correctly sized 5-byte
slot raises `AttributeError` because `self._value` is never initialised
in the bytes branch. -/
theorem fieldChecklistResponses_all_paths_raise :
    (2 <<< 5 ||| 3 : Nat) = 67 ∧
    fieldChecklistResponses_fromDict [(3, 2), (7, 0)] = .error .keyError ∧
    fieldChecklistResponses_fromBytes [67] = .error .typeError ∧
    fieldChecklistResponses_fromBytes [67, 0, 0, 0, 0] = .error .attributeError := by
  decide

/-- C8: `FieldUWBPosition.as_bytes` multiplies each coordinate by the
float `CONV_FACTOR = 1e3` and calls `to_bytes` on the product without the
`int(...)` conversion that `FieldGPSPosition.as_bytes` performs; a float
has no `to_bytes`, so encoding ANY UWB position — in particular the
claim's `{x: 1.234, y: -2.5, z: 0.0}` — raises `AttributeError` and never
round-trips. -/
theorem fieldUWBPosition_as_bytes_always_raises :
    fieldUWBPosition_as_bytes
      ⟨.pfloat (1234 / 1000), .pfloat (-(5 / 2)), .pfloat 0⟩ =
      .error .attributeError ∧
    ∀ f : FieldUWBPositionV, fieldUWBPosition_as_bytes f = .error .attributeError := by
  constructor
  · rfl
  · intro f
    obtain ⟨x, y, z⟩ := f
    cases x <;> rfl

/-- C1: the byte round-trip is broken.  `MsgLoginResponse.as_bytes`
writes the username before the UID while the bytes constructor reads the
UID first (the class docstring gives the constructor's order), so
re-decoding a message's own serialization yields uid 6451042 (the first
four username bytes, little-endian) instead of 5 and an empty username;
`MsgImpactReport.as_bytes` raises `NameError` on the bare
`accel_direction`; and `MsgChecklistUpdate` can never be re-decoded from
bytes at all (`FieldChecklistdData` misspelling). -/
theorem loginResponse_bytes_roundtrip_broken :
    msgLoginResponse_fromDict ⟨none, some 1, some (pystr "bob"), some 5, some 2⟩ =
      .ok ⟨1, fieldInteger_fromInt 4 5, ⟨16, some (pystr "bob")⟩, 2⟩ ∧
    msgLoginResponse_as_bytes ⟨1, fieldInteger_fromInt 4 5, ⟨16, some (pystr "bob")⟩, 2⟩ =
      .ok [2, 1, 98, 111, 98, 0, 0, 0, 0, 0, 0, 0, 0, 0, 0, 0, 0, 0, 5, 0, 0, 0, 2] ∧
    msgLoginResponse_fromBytes
      [2, 1, 98, 111, 98, 0, 0, 0, 0, 0, 0, 0, 0, 0, 0, 0, 0, 0, 5, 0, 0, 0, 2] =
      .ok ⟨1, fieldInteger_fromInt 4 6451042, ⟨16, some []⟩, 2⟩ ∧
    (6451042 : Int) ≠ 5 ∧
    msgImpactReport_as_bytes ⟨fieldInteger_fromInt 8 7, 1, 2⟩ = .error .nameError ∧
    msgChecklistUpdate_fromBytes (msgChecklistUpdate_TYPE :: List.replicate 4097 0) =
      .error .attributeError := by
  decide

/-- C6: not every wrong-length buffer is rejected.  An 11-byte buffer
(type byte 16 plus ten zero bytes) is SILENTLY ACCEPTED by the
`MsgVehicleReport` bytes constructor although the message's fixed layout
is 28 bytes: the position fields only reject buffers LONGER than their
size, so the empty slices left after the tag id and frame counter decode
as zero positions and the exhaustion assert passes. -/
theorem vehicleReport_accepts_short_buffer :
    msgVehicleReport_fromBytes (msgVehicleReport_TYPE :: List.replicate 10 0) =
      .ok ⟨⟨8, some 0⟩, ⟨2, some 0⟩,
           ⟨pyDivByConst 0 1000, pyDivByConst 0 1000, pyDivByConst 0 1000⟩,
           ⟨pyDivByConst 0 10000000, pyDivByConst 0 10000000⟩⟩ ∧
    (msgVehicleReport_TYPE :: List.replicate 10 0).length = 11 ∧
    1 + fieldTagID_SIZE + fieldFrameCounter_SIZE + fieldUWBPosition_SIZE +
      fieldGPSPosition_SIZE = 28 := by
  refine ⟨rfl, by decide, by decide⟩

/-- C9 counterexample: three of the claim's instances fail on concrete
inputs.  `MsgTagConfig.as_dict` on a concrete tag_config record has NO
`"type"` key; the `"segment"` entry of a concrete
`MsgChecklistUpdateSegment.as_dict` is the field's raw `bytes` value (not
a non-byte, JSON-serializable one); and `MsgUserQuestionSegment` — one of
the claim's segment-carrying messages — cannot even be constructed, its
`dict` constructor raising `AttributeError` on the nonexistent
`fc.FieldUserQuestionData` (as does its bytes branch on a layout-correct
34-byte buffer). -/
theorem tagConfig_as_dict_lacks_type_key :
    dictLookup (msgTagConfig_as_dict ⟨3, 5, ⟨16, some (pystr "truck")⟩⟩)
      (pystr "type") = none ∧
    dictLookup (msgChecklistUpdateSegment_as_dict ⟨1, 0, ⟨31, some (List.replicate 31 0)⟩⟩)
      (pystr "segment") = some (.vbytes (List.replicate 31 0)) ∧
    msgUserQuestionSegment_fromDict
      ⟨none, some 1, some 0, some (.pbytes (List.replicate 31 0))⟩ =
      .error .attributeError ∧
    msgUserQuestionSegment_fromBytes
      (msgUserQuestionSegment_TYPE :: 1 :: 0 :: List.replicate 31 0) =
      .error .attributeError := by
  exact ⟨rfl, rfl, rfl, rfl⟩

/-- C9 (amended): for every message class, `as_dict` returns an object
with exactly one key per field, in the declared order, holding the
field's stored value, preceded by a `"type"` key equal to the class name
— EXCEPT `MsgTagConfig`, whose dict has only its three field keys and no
`"type"` entry, and with the caveats that the `segment` entry of
`MsgChecklistUpdateSegment` is the binary field's raw bytes value, and
that `MsgUserQuestionSegment` admits no instance at all (every
constructor path raises `AttributeError` on the nonexistent
`fc.FieldUserQuestionData`), leaving its `as_dict` unreachable. -/
theorem as_dict_key_layout (lr : MsgLoginRequestRec) (lg : MsgLoginResponseRec)
    (lo : MsgLogoutNotificationRec) (cs : MsgChecklistUpdateStartRec)
    (cg : MsgChecklistUpdateSegmentRec) (cu : MsgChecklistUpdateRec)
    (cr : MsgChecklistResponsesRec) (cv : MsgChecklistVersionNotificationRec)
    (us : MsgUserQuestionStartRec) (uq : MsgUserQuestionRec)
    (ur : MsgUserQuestionResponseRec) (ir : MsgImpactReportRec)
    (vr : MsgVehicleReportRec) (sb : MsgSetBlockStatusRec)
    (tq : MsgTimeRequestRec) (ts : MsgTimeSetRec) (tc : MsgTagConfigRec)
    (qid sqn : Int) (dat : Option PyBytesLike) (b1 b2 : Nat) (tail : List Nat) :
    (msgLoginRequest_as_dict lr).map Prod.fst =
      [pystr "type", pystr "uid", pystr "tagid"] ∧
    dictLookup (msgLoginRequest_as_dict lr) (pystr "type") =
      some (.vstr msgLoginRequest_NAME) ∧
    dictLookup (msgLoginRequest_as_dict lr) (pystr "uid") = some (intFieldVal lr.uid) ∧
    dictLookup (msgLoginRequest_as_dict lr) (pystr "tagid") =
      some (intFieldVal lr.tagid) ∧
    (msgLoginResponse_as_dict lg).map Prod.fst =
      [pystr "type", pystr "response", pystr "username", pystr "uid", pystr "profile"] ∧
    dictLookup (msgLoginResponse_as_dict lg) (pystr "type") =
      some (.vstr msgLoginResponse_NAME) ∧
    dictLookup (msgLoginResponse_as_dict lg) (pystr "response") =
      some (.vint lg.response) ∧
    dictLookup (msgLoginResponse_as_dict lg) (pystr "username") =
      some (textFieldVal lg.username) ∧
    dictLookup (msgLoginResponse_as_dict lg) (pystr "uid") = some (intFieldVal lg.uid) ∧
    dictLookup (msgLoginResponse_as_dict lg) (pystr "profile") =
      some (.vint lg.profile) ∧
    (msgLogoutNotification_as_dict lo).map Prod.fst = [pystr "type", pystr "tagid"] ∧
    dictLookup (msgLogoutNotification_as_dict lo) (pystr "type") =
      some (.vstr msgLogoutNotification_NAME) ∧
    dictLookup (msgLogoutNotification_as_dict lo) (pystr "tagid") =
      some (intFieldVal lo.tagid) ∧
    (msgChecklistUpdateStart_as_dict cs).map Prod.fst =
      [pystr "type", pystr "segments", pystr "checklist_version", pystr "length"] ∧
    dictLookup (msgChecklistUpdateStart_as_dict cs) (pystr "type") =
      some (.vstr msgChecklistUpdateStart_NAME) ∧
    dictLookup (msgChecklistUpdateStart_as_dict cs) (pystr "segments") =
      some (.vint cs.segments) ∧
    dictLookup (msgChecklistUpdateStart_as_dict cs) (pystr "checklist_version") =
      some (.vint cs.checklist_version) ∧
    dictLookup (msgChecklistUpdateStart_as_dict cs) (pystr "length") =
      some (intFieldVal cs.length) ∧
    (msgChecklistUpdateSegment_as_dict cg).map Prod.fst =
      [pystr "type", pystr "checklist_version", pystr "seq_no", pystr "segment"] ∧
    dictLookup (msgChecklistUpdateSegment_as_dict cg) (pystr "type") =
      some (.vstr msgChecklistUpdateSegment_NAME) ∧
    dictLookup (msgChecklistUpdateSegment_as_dict cg) (pystr "checklist_version") =
      some (.vint cg.checklist_version) ∧
    dictLookup (msgChecklistUpdateSegment_as_dict cg) (pystr "seq_no") =
      some (.vint cg.seq_no) ∧
    dictLookup (msgChecklistUpdateSegment_as_dict cg) (pystr "segment") =
      some (binFieldVal cg.segment) ∧
    (msgChecklistUpdate_as_dict cu).map Prod.fst =
      [pystr "type", pystr "checklist_version", pystr "checklist_data"] ∧
    dictLookup (msgChecklistUpdate_as_dict cu) (pystr "type") =
      some (.vstr msgChecklistUpdate_NAME) ∧
    dictLookup (msgChecklistUpdate_as_dict cu) (pystr "checklist_version") =
      some (.vint cu.checklist_version) ∧
    dictLookup (msgChecklistUpdate_as_dict cu) (pystr "checklist_data") =
      some (jsonFieldVal cu.checklist_data) ∧
    (msgChecklistResponses_as_dict cr).map Prod.fst =
      [pystr "type", pystr "tagid", pystr "responses", pystr "checklist_version"] ∧
    dictLookup (msgChecklistResponses_as_dict cr) (pystr "type") =
      some (.vstr msgChecklistResponses_NAME) ∧
    dictLookup (msgChecklistResponses_as_dict cr) (pystr "tagid") =
      some (intFieldVal cr.tagid) ∧
    dictLookup (msgChecklistResponses_as_dict cr) (pystr "responses") =
      some (crFieldVal cr.responses) ∧
    dictLookup (msgChecklistResponses_as_dict cr) (pystr "checklist_version") =
      some (.vint cr.checklist_version) ∧
    (msgChecklistVersionNotification_as_dict cv).map Prod.fst =
      [pystr "type", pystr "checklist_version"] ∧
    dictLookup (msgChecklistVersionNotification_as_dict cv) (pystr "type") =
      some (.vstr msgChecklistVersionNotification_NAME) ∧
    dictLookup (msgChecklistVersionNotification_as_dict cv)
      (pystr "checklist_version") = some (.vint cv.checklist_version) ∧
    (msgUserQuestionStart_as_dict us).map Prod.fst =
      [pystr "type", pystr "question_id", pystr "segments", pystr "length"] ∧
    dictLookup (msgUserQuestionStart_as_dict us) (pystr "type") =
      some (.vstr msgUserQuestionStart_NAME) ∧
    dictLookup (msgUserQuestionStart_as_dict us) (pystr "question_id") =
      some (.vint us.question_id) ∧
    dictLookup (msgUserQuestionStart_as_dict us) (pystr "segments") =
      some (.vint us.segments) ∧
    dictLookup (msgUserQuestionStart_as_dict us) (pystr "length") =
      some (intFieldVal us.length) ∧
    (msgUserQuestion_as_dict uq).map Prod.fst =
      [pystr "type", pystr "question_id", pystr "user_question"] ∧
    dictLookup (msgUserQuestion_as_dict uq) (pystr "type") =
      some (.vstr msgUserQuestion_NAME) ∧
    dictLookup (msgUserQuestion_as_dict uq) (pystr "question_id") =
      some (.vint uq.question_id) ∧
    dictLookup (msgUserQuestion_as_dict uq) (pystr "user_question") =
      some (jsonFieldVal uq.user_question) ∧
    (msgUserQuestionResponse_as_dict ur).map Prod.fst =
      [pystr "type", pystr "tagid", pystr "question_id", pystr "responses"] ∧
    dictLookup (msgUserQuestionResponse_as_dict ur) (pystr "type") =
      some (.vstr msgUserQuestionResponse_NAME) ∧
    dictLookup (msgUserQuestionResponse_as_dict ur) (pystr "tagid") =
      some (intFieldVal ur.tagid) ∧
    dictLookup (msgUserQuestionResponse_as_dict ur) (pystr "question_id") =
      some (.vint ur.question_id) ∧
    dictLookup (msgUserQuestionResponse_as_dict ur) (pystr "responses") =
      some (varLenFieldVal ur.responses) ∧
    (msgImpactReport_as_dict ir).map Prod.fst =
      [pystr "type", pystr "tagid", pystr "severity", pystr "accel_direction"] ∧
    dictLookup (msgImpactReport_as_dict ir) (pystr "type") =
      some (.vstr msgImpactReport_NAME) ∧
    dictLookup (msgImpactReport_as_dict ir) (pystr "tagid") =
      some (intFieldVal ir.tagid) ∧
    dictLookup (msgImpactReport_as_dict ir) (pystr "severity") =
      some (.vint ir.severity) ∧
    dictLookup (msgImpactReport_as_dict ir) (pystr "accel_direction") =
      some (.vint ir.accel_direction) ∧
    (msgVehicleReport_as_dict vr).map Prod.fst =
      [pystr "type", pystr "tagid", pystr "frame_counter", pystr "uwbpos",
       pystr "gpspos"] ∧
    dictLookup (msgVehicleReport_as_dict vr) (pystr "type") =
      some (.vstr msgVehicleReport_NAME) ∧
    dictLookup (msgVehicleReport_as_dict vr) (pystr "tagid") =
      some (intFieldVal vr.tagid) ∧
    dictLookup (msgVehicleReport_as_dict vr) (pystr "frame_counter") =
      some (intFieldVal vr.frame_counter) ∧
    dictLookup (msgVehicleReport_as_dict vr) (pystr "uwbpos") =
      some (uwbFieldVal vr.uwbpos) ∧
    dictLookup (msgVehicleReport_as_dict vr) (pystr "gpspos") =
      some (gpsFieldVal vr.gpspos) ∧
    (msgSetBlockStatus_as_dict sb).map Prod.fst =
      [pystr "type", pystr "tagid", pystr "block_status"] ∧
    dictLookup (msgSetBlockStatus_as_dict sb) (pystr "type") =
      some (.vstr msgSetBlockStatus_NAME) ∧
    dictLookup (msgSetBlockStatus_as_dict sb) (pystr "tagid") =
      some (intFieldVal sb.tagid) ∧
    dictLookup (msgSetBlockStatus_as_dict sb) (pystr "block_status") =
      some (.vbool sb.block_status) ∧
    (msgTimeRequest_as_dict tq).map Prod.fst = [pystr "type", pystr "tagid"] ∧
    dictLookup (msgTimeRequest_as_dict tq) (pystr "type") =
      some (.vstr msgTimeRequest_NAME) ∧
    dictLookup (msgTimeRequest_as_dict tq) (pystr "tagid") =
      some (intFieldVal tq.tagid) ∧
    (msgTimeSet_as_dict ts).map Prod.fst = [pystr "type", pystr "timestamp"] ∧
    dictLookup (msgTimeSet_as_dict ts) (pystr "type") =
      some (.vstr msgTimeSet_NAME) ∧
    dictLookup (msgTimeSet_as_dict ts) (pystr "timestamp") =
      some (intFieldVal ts.timestamp) ∧
    (msgTagConfig_as_dict tc).map Prod.fst =
      [pystr "crash_sens", pystr "report_rate", pystr "vehicle_name"] ∧
    dictLookup (msgTagConfig_as_dict tc) (pystr "type") = none ∧
    dictLookup (msgTagConfig_as_dict tc) (pystr "crash_sens") =
      some (.vint tc.crash_sens) ∧
    dictLookup (msgTagConfig_as_dict tc) (pystr "report_rate") =
      some (.vint tc.report_rate) ∧
    dictLookup (msgTagConfig_as_dict tc) (pystr "vehicle_name") =
      some (textFieldVal tc.vehicle_name) ∧
    msgUserQuestionSegment_fromDict ⟨none, some qid, some sqn, dat⟩ =
      .error .attributeError ∧
    msgUserQuestionSegment_fromBytes (msgUserQuestionSegment_TYPE :: b1 :: b2 :: tail) =
      .error .attributeError := by
  repeat' constructor

/-- C3 counterexample: type codes 7 (`MsgChecklistUpdate`) and 13
(`MsgUserQuestion`) belong to defined message classes, yet `parse_bytes`
has no entry for them and dispatch fails with the `UnknownType`
(`KeyError`) failure, refuting "one entry per defined message type
(codes 1-3, 5-8, 10-20)". -/
theorem parse_bytes_misses_defined_codes :
    msgChecklistUpdate_TYPE = 7 ∧ msgUserQuestion_TYPE = 13 ∧
    parse_bytes_dispatch [msgChecklistUpdate_TYPE] = .error .keyError ∧
    parse_bytes_dispatch [msgUserQuestion_TYPE] = .error .keyError := by
  decide

/-- C3 (amended): the `parse_bytes` table maps exactly the 16 codes
{1, 2, 3, 5, 6, 8, 10, 11, 12, 14, 15, 16, 17, 18, 19, 20} to their
message classes; every other leading byte — including the reserved codes
4 and 9, and also the defined-but-unmapped codes 7 and 13 — fails with
the `UnknownType` (`KeyError`) failure. -/
theorem parse_bytes_dispatch_table (c : Nat) (rest : List Nat)
    (h : c ∉ [1, 2, 3, 5, 6, 8, 10, 11, 12, 14, 15, 16, 17, 18, 19, 20]) :
    parse_bytes_dispatch (c :: rest) = .error .keyError ∧
    parse_bytes_dispatch (msgLoginRequest_TYPE :: rest) = .ok .loginRequest ∧
    parse_bytes_dispatch (msgLoginResponse_TYPE :: rest) = .ok .loginResponse ∧
    parse_bytes_dispatch (msgLogoutNotification_TYPE :: rest) = .ok .logoutNotification ∧
    parse_bytes_dispatch (msgChecklistUpdateStart_TYPE :: rest) = .ok .checklistUpdateStart ∧
    parse_bytes_dispatch (msgChecklistUpdateSegment_TYPE :: rest) = .ok .checklistUpdateSegment ∧
    parse_bytes_dispatch (msgChecklistResponses_TYPE :: rest) = .ok .checklistResponses ∧
    parse_bytes_dispatch (msgChecklistVersionNotification_TYPE :: rest) =
      .ok .checklistVersionNotification ∧
    parse_bytes_dispatch (msgUserQuestionStart_TYPE :: rest) = .ok .userQuestionStart ∧
    parse_bytes_dispatch (msgUserQuestionSegment_TYPE :: rest) = .ok .userQuestionSegment ∧
    parse_bytes_dispatch (msgUserQuestionResponse_TYPE :: rest) = .ok .userQuestionResponse ∧
    parse_bytes_dispatch (msgImpactReport_TYPE :: rest) = .ok .impactReport ∧
    parse_bytes_dispatch (msgVehicleReport_TYPE :: rest) = .ok .vehicleReport ∧
    parse_bytes_dispatch (msgTagConfig_TYPE :: rest) = .ok .tagConfig ∧
    parse_bytes_dispatch (msgSetBlockStatus_TYPE :: rest) = .ok .setBlockStatus ∧
    parse_bytes_dispatch (msgTimeRequest_TYPE :: rest) = .ok .timeRequest ∧
    parse_bytes_dispatch (msgTimeSet_TYPE :: rest) = .ok .timeSet := by
  have h' : dictLookup typecode_to_msg c = none := by
    rw [dictLookup_eq_none_iff]
    simp only [typecode_to_msg, msgLoginRequest_TYPE, msgLoginResponse_TYPE,
      msgLogoutNotification_TYPE, msgChecklistUpdateStart_TYPE,
      msgChecklistUpdateSegment_TYPE, msgChecklistResponses_TYPE,
      msgChecklistVersionNotification_TYPE, msgUserQuestionStart_TYPE,
      msgUserQuestionSegment_TYPE, msgUserQuestionResponse_TYPE,
      msgImpactReport_TYPE, msgVehicleReport_TYPE, msgTagConfig_TYPE,
      msgSetBlockStatus_TYPE, msgTimeRequest_TYPE, msgTimeSet_TYPE,
      List.map_cons, List.map_nil, List.mem_cons, List.not_mem_nil] at h ⊢
    tauto
  refine ⟨?_, rfl, rfl, rfl, rfl, rfl, rfl, rfl, rfl, rfl, rfl, rfl, rfl, rfl, rfl, rfl, rfl⟩
  simp only [parse_bytes_dispatch, h']

/-- C3 witness: the reserved codes 4 and 9 dispatch to the `UnknownType`
failure. -/
theorem parse_bytes_dispatch_table_witness :
    parse_bytes_dispatch (4 :: []) = .error .keyError ∧
    parse_bytes_dispatch (9 :: []) = .error .keyError :=
  ⟨(parse_bytes_dispatch_table 4 [] (by decide)).1,
   (parse_bytes_dispatch_table 9 [] (by decide)).1⟩

/-- C4: the segment count is wrong whenever the serialized length is an
exact multiple of 31, and `user_question_splitter` always raises.  A
29-character string document serializes to exactly 31 bytes, for which
the claim demands `segments = ceil(31/31) = 1`; `checklist_splitter`
instead emits a start message with `segments = 2` and appends an entirely
zero spurious segment (its loop pads and appends the EMPTY slice that
ends the data).  On a 100-byte document (the spec's example) the count 4
and the concatenate-then-truncate reassembly are correct.
`user_question_splitter` raises `TypeError` on every input (`len()` of an
`islice` object), so its half of the claim never holds. -/
theorem checklist_splitter_segment_count_bug :
    (jsonDumps (.jstr (List.replicate 29 97))).length = 31 ∧
    checklist_splitter (.jstr (List.replicate 29 97)) 1 =
      .ok [.start ⟨2, 1, ⟨2, some 31⟩⟩,
           .seg ⟨1, 0, ⟨31, some (34 :: (List.replicate 29 97 ++ [34]))⟩⟩,
           .seg ⟨1, 1, ⟨31, some (List.replicate 31 0)⟩⟩] ∧
    checklist_splitter (.jstr (List.replicate 98 97)) 1 =
      .ok [.start ⟨4, 1, ⟨2, some 100⟩⟩,
           .seg ⟨1, 0, ⟨31, some (34 :: List.replicate 30 97)⟩⟩,
           .seg ⟨1, 1, ⟨31, some (List.replicate 31 97)⟩⟩,
           .seg ⟨1, 2, ⟨31, some (List.replicate 31 97)⟩⟩,
           .seg ⟨1, 3, ⟨31, some (List.replicate 6 97 ++ 34 :: List.replicate 24 0)⟩⟩] ∧
    ((34 :: List.replicate 30 97) ++ List.replicate 31 97 ++ List.replicate 31 97 ++
        (List.replicate 6 97 ++ 34 :: List.replicate 24 0)).take 100 =
      jsonDumps (.jstr (List.replicate 98 97)) ∧
    user_question_splitter (.jstr (List.replicate 29 97)) 1 = .error .typeError := by
  have hstep : ∀ b : List Nat,
      ¬ ((b.take fieldChecklistSegment_SIZE).length < fieldChecklistSegment_SIZE) →
      segmentize b =
        b.take fieldChecklistSegment_SIZE ::
          segmentize (b.drop fieldChecklistSegment_SIZE) := by
    intro b h
    rw [segmentize, dif_neg h]
  have hd29 : jsonDumps (.jstr (List.replicate 29 97)) =
      34 :: (List.replicate 29 97 ++ [34]) := by
    simp only [jsonDumps]
    decide
  have hd98 : jsonDumps (.jstr (List.replicate 98 97)) =
      34 :: (List.replicate 98 97 ++ [34]) := by
    simp only [jsonDumps]
    decide
  have hs29 : segmentize (34 :: (List.replicate 29 97 ++ [34])) =
      [34 :: (List.replicate 29 97 ++ [34]), List.replicate 31 0] := by
    rw [hstep _ (by decide)]
    rw [(by decide : (34 :: (List.replicate 29 97 ++ [34])).drop
          fieldChecklistSegment_SIZE = ([] : List Nat))]
    rw [segmentize]
    decide
  have hs98 : segmentize (34 :: (List.replicate 98 97 ++ [34])) =
      [34 :: List.replicate 30 97, List.replicate 31 97, List.replicate 31 97,
       List.replicate 6 97 ++ 34 :: List.replicate 24 0] := by
    rw [hstep _ (by decide)]
    rw [(by decide : (34 :: (List.replicate 98 97 ++ [34])).drop
          fieldChecklistSegment_SIZE = (List.replicate 68 97 ++ [34] : List Nat))]
    rw [hstep _ (by decide)]
    rw [(by decide : ((List.replicate 68 97 ++ [34] : List Nat)).drop
          fieldChecklistSegment_SIZE = (List.replicate 37 97 ++ [34] : List Nat))]
    rw [hstep _ (by decide)]
    rw [(by decide : ((List.replicate 37 97 ++ [34] : List Nat)).drop
          fieldChecklistSegment_SIZE = (List.replicate 6 97 ++ [34] : List Nat))]
    rw [segmentize]
    decide
  refine ⟨?_, ?_, ?_, ?_, rfl⟩
  · rw [hd29]
    decide
  · simp only [checklist_splitter, hd29, hs29]
    decide
  · simp only [checklist_splitter, hd98, hs98]
    decide
  · rw [hd98]
    decide
